import Mathlib

/-!
A shallow embedding of `src/main.rs` of the `lsm` repository: a small
GitHub-release installer. The HTTP transport, the JSON parsing of response
bodies and the home-directory lookup are external capabilities, so they are
modelled as explicit parameters (a `Net` oracle mapping URLs to responses, a
`bodyJson` field holding the parsed body, a `home` argument); everything else
is translated directly from the source. `unwrap`/panic is modelled with
`Option` (`none` = the process aborted), `Result` with `Except`.
-/

set_option autoImplicit false

/-- JSON values: the abstract result of parsing a response body. -/
inductive Json where
  | null : Json
  | bool : Bool → Json
  | num : Int → Json
  | str : String → Json
  | arr : List Json → Json
  | obj : List (String × Json) → Json

/-- Field lookup in a JSON object (serde takes the first occurrence of a key). -/
def Json.getField : Json → String → Option Json
  | .obj fields, k => fields.lookup k
  | _, _ => none

def Json.asString : Json → Option String
  | .str s => some s
  | _ => none

def Json.asInt : Json → Option Int
  | .num n => some n
  | _ => none

def Json.asBool : Json → Option Bool
  | .bool b => some b
  | _ => none

def Json.asArr : Json → Option (List Json)
  | .arr xs => some xs
  | _ => none

/-- A required `String` field: absent or non-string is a decode failure. -/
def Json.strField (j : Json) (k : String) : Option String :=
  (j.getField k).bind Json.asString

/-- A required `i64` field. -/
def Json.intField (j : Json) (k : String) : Option Int :=
  (j.getField k).bind Json.asInt

/-- A required `bool` field. -/
def Json.boolField (j : Json) (k : String) : Option Bool :=
  (j.getField k).bind Json.asBool

/-- An `Option<String>` field, with serde defaults: a missing key or a JSON
`null` decodes to `none`; a string decodes to `some`; any other shape is a
decode failure (outer `none`). -/
def Json.optStrField (j : Json) (k : String) : Option (Option String) :=
  match j.getField k with
  | Option.none => some none
  | some Json.null => some none
  | some (Json.str s) => some (some s)
  | some _ => none

/-- Mirror of `struct GHAuthorRes` (all fields required by serde). -/
structure GHAuthorRes where
  url : String
  login : String
  id : Int
  node_id : String
  avatar_url : String
  gravatar_id : String
  html_url : String
  followers_url : String
  following_url : String
  gists_url : String
  starred_url : String
  subscriptions_url : String
  organizations_url : String
  repos_url : String
  events_url : String
  received_events_url : String
  account_type : String
  site_admin : Bool

/-- Mirror of `struct GHAssetRes` (all fields required by serde). -/
structure GHAssetRes where
  url : String
  id : Int
  node_id : String
  name : String
  label : String
  uploader : GHAuthorRes
  content_type : String
  state : String
  size : Int
  download_count : Int
  created_at : String
  updated_at : String
  browser_download_url : String

/-- Mirror of `struct GHReleaseRes`. The `Option` fields are serde
`Option<_>` fields and may be absent; every other field is required. -/
structure GHReleaseRes where
  url : String
  html_url : String
  assets_url : String
  upload_url : String
  tarball_url : Option String
  zipball_url : Option String
  id : Int
  node_id : String
  tag_name : String
  target_commitish : String
  name : Option String
  body : Option String
  draft : Bool
  prerelease : Bool
  created_at : String
  published_at : Option String
  author : Option GHAuthorRes
  assets : List GHAssetRes

/-- serde deserialization of `GHAuthorRes`: every field is required; the JSON
key `type` maps to the Rust field `account_type` via the serde rename. -/
def decodeGHAuthorRes (j : Json) : Option GHAuthorRes :=
  match j.strField "login", j.intField "id", j.strField "node_id",
      j.strField "avatar_url", j.strField "gravatar_id", j.strField "url",
      j.strField "html_url", j.strField "followers_url",
      j.strField "following_url", j.strField "gists_url",
      j.strField "starred_url", j.strField "subscriptions_url",
      j.strField "organizations_url", j.strField "repos_url",
      j.strField "events_url", j.strField "received_events_url",
      j.strField "type", j.boolField "site_admin" with
  | some login, some id, some node_id, some avatar_url, some gravatar_id,
      some url, some html_url, some followers_url, some following_url,
      some gists_url, some starred_url, some subscriptions_url,
      some organizations_url, some repos_url, some events_url,
      some received_events_url, some account_type, some site_admin =>
    some { url := url, login := login, id := id, node_id := node_id,
           avatar_url := avatar_url, gravatar_id := gravatar_id,
           html_url := html_url, followers_url := followers_url,
           following_url := following_url, gists_url := gists_url,
           starred_url := starred_url, subscriptions_url := subscriptions_url,
           organizations_url := organizations_url, repos_url := repos_url,
           events_url := events_url,
           received_events_url := received_events_url,
           account_type := account_type, site_admin := site_admin }
  | _, _, _, _, _, _, _, _, _, _, _, _, _, _, _, _, _, _ => none

/-- serde deserialization of `GHAssetRes`: every field is required, including
the full `uploader` author object. -/
def decodeGHAssetRes (j : Json) : Option GHAssetRes :=
  match j.strField "url", j.intField "id", j.strField "node_id",
      j.strField "name", j.strField "label",
      (j.getField "uploader").bind decodeGHAuthorRes,
      j.strField "content_type", j.strField "state", j.intField "size",
      j.intField "download_count", j.strField "created_at",
      j.strField "updated_at", j.strField "browser_download_url" with
  | some url, some id, some node_id, some name, some label, some uploader,
      some content_type, some state, some size, some download_count,
      some created_at, some updated_at, some browser_download_url =>
    some { url := url, id := id, node_id := node_id, name := name,
           label := label, uploader := uploader,
           content_type := content_type, state := state, size := size,
           download_count := download_count, created_at := created_at,
           updated_at := updated_at,
           browser_download_url := browser_download_url }
  | _, _, _, _, _, _, _, _, _, _, _, _, _ => none

/-- serde deserialization of an `Option<GHAuthorRes>` field. -/
def decodeOptAuthor (j : Json) (k : String) : Option (Option GHAuthorRes) :=
  match j.getField k with
  | Option.none => some none
  | some Json.null => some none
  | some aj =>
    match decodeGHAuthorRes aj with
    | some a => some (some a)
    | Option.none => none

/-- serde deserialization of `GHReleaseRes`: the non-`Option` fields are all
required; unknown extra fields are ignored. -/
def decodeGHReleaseRes (j : Json) : Option GHReleaseRes :=
  match j.strField "url", j.strField "html_url", j.strField "assets_url",
      j.strField "upload_url", j.optStrField "tarball_url",
      j.optStrField "zipball_url", j.intField "id", j.strField "node_id",
      j.strField "tag_name", j.strField "target_commitish",
      j.optStrField "name", j.optStrField "body", j.boolField "draft",
      j.boolField "prerelease", j.strField "created_at",
      j.optStrField "published_at", decodeOptAuthor j "author",
      ((j.getField "assets").bind Json.asArr).bind
        (fun xs => xs.mapM decodeGHAssetRes) with
  | some url, some html_url, some assets_url, some upload_url,
      some tarball_url, some zipball_url, some id, some node_id,
      some tag_name, some target_commitish, some name, some body,
      some draft, some prerelease, some created_at, some published_at,
      some author, some assets =>
    some { url := url, html_url := html_url, assets_url := assets_url,
           upload_url := upload_url, tarball_url := tarball_url,
           zipball_url := zipball_url, id := id, node_id := node_id,
           tag_name := tag_name, target_commitish := target_commitish,
           name := name, body := body, draft := draft,
           prerelease := prerelease, created_at := created_at,
           published_at := published_at, author := author, assets := assets }
  | _, _, _, _, _, _, _, _, _, _, _, _, _, _, _, _, _, _ => none

/-- serde deserialization of `Vec<GHReleaseRes>` (used by `get_releases`). -/
def decodeGHReleaseList (j : Json) : Option (List GHReleaseRes) :=
  (Json.asArr j).bind (fun xs => xs.mapM decodeGHReleaseRes)

/-- Mirror of `struct ResAsset`. -/
structure ResAsset where
  name : String
  url : String
  deriving DecidableEq

/-- Mirror of `struct Res`: the internal projection of a release. -/
structure Res where
  name : String
  assets : List ResAsset
  deriving DecidableEq

/-- Mirror of `struct GHRelease`: the per-OS expected asset names. -/
structure GHRelease where
  linux_bin_name : String
  win_bin_name : String
  mac_bin_name : String
  deriving DecidableEq

/-- Mirror of `struct LSInfo`. -/
structure LSInfo where
  name : String
  url : String
  bin_name : String
  gh_release : GHRelease
  deriving DecidableEq

/-- The compilation target OS, the value of `target_os` that the `cfg`
attributes branch on. `other s` stands for any target other than the three
the source mentions. -/
inductive OS where
  | linux : OS
  | windows : OS
  | macos : OS
  | other : String → OS
  deriving DecidableEq

/-- Mirror of the `cfg(target_os = ...)`-selected `GHRelease::bin_name`
method: at most one of the three definitions is compiled in, the one whose
`target_os` matches. `some` is the body of the compiled method; `none` means
no `bin_name` method exists for that target, so the crate does not compile
at all for it (there is no run-time fallback). -/
def GHRelease.bin_name (g : GHRelease) : OS → Option String
  | OS.linux => some g.linux_bin_name
  | OS.windows => some g.win_bin_name
  | OS.macos => some g.mac_bin_name
  | OS.other _ => none

/-- A configured `reqwest::blocking::Client`: the source configures only the
`user_agent`; no authorization is ever set, modelled by an `Option` that the
builder leaves at `none`. -/
structure Client where
  user_agent : String
  authorization : Option String
  deriving DecidableEq

/-- An HTTP request as issued on the wire: target URL plus the headers the
client attaches. -/
structure Request where
  url : String
  user_agent : String
  authorization : Option String
  deriving DecidableEq

/-- An HTTP response: its status code, raw body bytes, and the result of
parsing those bytes as JSON (`none` = the body is not valid JSON). The JSON
view is carried alongside the bytes because JSON parsing itself is an
external capability (serde_json). -/
structure HttpResponse where
  status : Nat
  bodyBytes : List Nat
  bodyJson : Option Json

/-- The network capability: what `GET url` returns. `none` models a
transport-level failure (connection error); any response, whatever its
status code, is a successful `send()`. -/
def Net : Type := String → Option HttpResponse

/-- The error kinds a `reqwest::Error` can carry in this program's usage.
`statusError` is the kind produced by `error_for_status`; it is part of the
library's error type but, as the theorems show, this program never produces
it because it never inspects the status code. -/
inductive ReqwestError where
  | builderError : ReqwestError
  | sendError : String → ReqwestError
  | statusError : Nat → ReqwestError
  | decodeError : String → ReqwestError
  deriving DecidableEq

/-- `PathBuf::join` with a single component; paths are component lists. -/
def pathJoin (p : List String) (s : String) : List String := p ++ [s]

/-- Mirror of `LSInfo::bin_dir`: `home_dir().join(".lsm").join(self.name)`.
The home directory is an explicit argument because `env::home_dir` is an
environment capability. -/
def LSInfo.bin_dir (ls : LSInfo) (home : List String) : List String :=
  pathJoin (pathJoin home ".lsm") ls.name

/-- Mirror of `LSInfo::bin_path`: `self.bin_dir().join(self.bin_name)`. -/
def LSInfo.bin_path (ls : LSInfo) (home : List String) : List String :=
  pathJoin (ls.bin_dir home) ls.bin_name

/-- The filesystem state: which directories exist and which files exist,
with their byte contents. -/
@[ext] structure FS where
  dirs : List String → Bool
  files : List String → Option (List Nat)

/-- `fs::create_dir_all`: creates the directory and every ancestor
(create-if-absent, recursive); existing directories are untouched and no
error is raised when they already exist. -/
def FS.createDirAll (fs : FS) (p : List String) : FS :=
  { fs with dirs := fun q => fs.dirs q || q.isPrefixOf p }

/-- `File::create`: creates the file if absent, truncates it to empty if
present. Fails (`none`) if the parent directory does not exist. -/
def FS.fileCreate (fs : FS) (p : List String) : Option FS :=
  if fs.dirs p.dropLast then
    some { fs with files := fun q => if q = p then some [] else fs.files q }
  else none

/-- `Write::write_all`: replaces the contents of the (already created) file
with the given bytes. -/
def FS.writeAll (fs : FS) (p : List String) (content : List Nat) : FS :=
  { fs with files := fun q => if q = p then some content else fs.files q }

/-- Mirror of `LSInfo::create_bin_dir`: `fs::create_dir_all(self.bin_dir())`. -/
def LSInfo.create_bin_dir (ls : LSInfo) (home : List String) (fs : FS) : FS :=
  fs.createDirAll (ls.bin_dir home)

/-- Mirror of `LSInfo::client`:
`Client::builder().user_agent("rust").build()`. Building never fails for
this configuration, so the `Ok` branch of the `Result` is always taken; the
builder sets only the user agent. -/
def LSInfo.client (_ls : LSInfo) : Except ReqwestError Client :=
  Except.ok { user_agent := "rust", authorization := none }

/-- Mirror of `LSInfo::get_release`. Sends `GET {url}/latest` through a
fresh client and decodes the JSON body into the `Res` projection with the
inline closure `|a| ResAsset { name, url: browser_download_url }`. The
second component collects the requests put on the wire. Note that the
status code of the response is never examined: `.json()` is called directly
on whatever `send()` returned. -/
def LSInfo.get_release (ls : LSInfo) (net : Net) :
    Except ReqwestError Res × List Request :=
  match ls.client with
  | Except.error e => (Except.error e, [])
  | Except.ok c =>
    let url := ls.url ++ "/" ++ "latest"
    let req : Request :=
      { url := url, user_agent := c.user_agent,
        authorization := c.authorization }
    match net url with
    | none => (Except.error (ReqwestError.sendError url), [req])
    | some resp =>
      match resp.bodyJson with
      | none => (Except.error (ReqwestError.decodeError url), [req])
      | some j =>
        match decodeGHReleaseRes j with
        | none => (Except.error (ReqwestError.decodeError url), [req])
        | some release =>
          (Except.ok
            { name := release.tag_name,
              assets := release.assets.map (fun a =>
                { name := a.name, url := a.browser_download_url }) },
            [req])

/-- Mirror of `LSInfo::get_download_url`:
`self.get_release().unwrap().assets.iter().find(|a| a.name == self.gh_release.bin_name()).unwrap().url.clone()`.
Both `unwrap`s abort the process on failure, modelled by `none`. The `os`
argument selects which compiled `bin_name` body is in the binary; on a
target where none is (`bin_name` = `none`) there is no program, which the
model folds into `none` as well. -/
def LSInfo.get_download_url (ls : LSInfo) (os : OS) (net : Net) :
    Option String × List Request :=
  match ls.gh_release.bin_name os with
  | none => (none, [])
  | some n =>
    match ls.get_release net with
    | (Except.error _, reqs) => (none, reqs)
    | (Except.ok res, reqs) =>
      match res.assets.find? (fun a => a.name == n) with
      | none => (none, reqs)
      | some a => (some a.url, reqs)

/-- Mirror of `LSInfo::get_bin`: resolves the download URL (panicking on
any failure), then `GET`s it with a fresh client and returns the raw bytes;
every step is `unwrap`ed. The bytes of the response are returned whatever
its status code. -/
def LSInfo.get_bin (ls : LSInfo) (os : OS) (net : Net) :
    Option (List Nat) × List Request :=
  match ls.get_download_url os net with
  | (none, reqs) => (none, reqs)
  | (some url, reqs) =>
    match ls.client with
    | Except.error _ => (none, reqs)
    | Except.ok c =>
      let req : Request :=
        { url := url, user_agent := c.user_agent,
          authorization := c.authorization }
      match net url with
      | none => (none, reqs ++ [req])
      | some resp => (some resp.bodyBytes, reqs ++ [req])

/-- Mirror of `LSInfo::get_releases`. It receives a `client` argument but
never uses it: the request goes through a fresh `self.client()?`. `GET
{url}` is decoded as a `Vec<GHReleaseRes>` and projected with the same
closure as `get_release`. -/
def LSInfo.get_releases (ls : LSInfo) (client : Client) (net : Net) :
    Except ReqwestError (List Res) × List Request :=
  match ls.client with
  | Except.error e => (Except.error e, [])
  | Except.ok c =>
    let req : Request :=
      { url := ls.url, user_agent := c.user_agent,
        authorization := c.authorization }
    match net ls.url with
    | none => (Except.error (ReqwestError.sendError ls.url), [req])
    | some resp =>
      match resp.bodyJson with
      | none => (Except.error (ReqwestError.decodeError ls.url), [req])
      | some j =>
        match decodeGHReleaseList j with
        | none => (Except.error (ReqwestError.decodeError ls.url), [req])
        | some releases =>
          (Except.ok (releases.map (fun r =>
            { name := r.tag_name,
              assets := r.assets.map (fun a =>
                { name := a.name, url := a.browser_download_url }) })),
            [req])

/-- How a run of `fn main` can end. `notCompiled` is the outcome of
targeting an OS for which no `bin_name` method exists (a compile error, so
there is no run at all); `unsupportedPlatform` is the run-time error the
specification describes — it is part of the outcome vocabulary so that the
specification's claim can be stated, but no code path produces it. -/
inductive Outcome where
  | notCompiled : Outcome
  | panicked : Outcome
  | unsupportedPlatform : Outcome
  | ioError : Outcome
  | ok : Outcome
  deriving DecidableEq

/-- The compiled-in configuration built at the top of `fn main`. -/
def mainLSInfo : LSInfo :=
  { name := "awesome-lsp"
    bin_name := "awesome-lsp"
    url := "https://api.github.com/repos/h-michael/awesome-lsp/releases"
    gh_release :=
      { linux_bin_name := "awesome-lsp-linux"
        mac_bin_name := "awesome-lsp-mac"
        win_bin_name := "awesome-lsp-windows.exe" } }

/-- Mirror of `fn main` for an arbitrary configuration: create the binary
directory, `File::create` the binary path (truncating any existing file),
then fetch the bytes and write them. The order matters: the file is created
before the download is attempted. -/
def mainWith (os : OS) (ls : LSInfo) (home : List String) (net : Net)
    (fs0 : FS) : Outcome × FS :=
  match ls.gh_release.bin_name os with
  | none => (Outcome.notCompiled, fs0)
  | some _ =>
    let fs1 := ls.create_bin_dir home fs0
    match fs1.fileCreate (ls.bin_path home) with
    | none => (Outcome.ioError, fs1)
    | some fs2 =>
      match ls.get_bin os net with
      | (none, _) => (Outcome.panicked, fs2)
      | (some content, _) =>
        (Outcome.ok, fs2.writeAll (ls.bin_path home) content)

/-- Mirror of `fn main` proper, at the compiled-in configuration. (Lean
reserves the name `main` for executable entry points, hence the suffix.) -/
def mainRun (os : OS) (home : List String) (net : Net) (fs0 : FS) :
    Outcome × FS :=
  mainWith os mainLSInfo home net fs0

/-- A concrete uploader/author JSON object with every required field. -/
def sampleAuthorJson : Json :=
  Json.obj
    [("login", Json.str "h-michael"), ("id", Json.num 1),
     ("node_id", Json.str "n1"), ("avatar_url", Json.str "a"),
     ("gravatar_id", Json.str ""), ("url", Json.str "u"),
     ("html_url", Json.str "h"), ("followers_url", Json.str "f1"),
     ("following_url", Json.str "f2"), ("gists_url", Json.str "g"),
     ("starred_url", Json.str "s1"), ("subscriptions_url", Json.str "s2"),
     ("organizations_url", Json.str "o"), ("repos_url", Json.str "r"),
     ("events_url", Json.str "e1"), ("received_events_url", Json.str "e2"),
     ("type", Json.str "User"), ("site_admin", Json.bool false)]

/-- The decoded value of `sampleAuthorJson`. -/
def sampleAuthor : GHAuthorRes :=
  { url := "u", login := "h-michael", id := 1, node_id := "n1",
    avatar_url := "a", gravatar_id := "", html_url := "h",
    followers_url := "f1", following_url := "f2", gists_url := "g",
    starred_url := "s1", subscriptions_url := "s2",
    organizations_url := "o", repos_url := "r", events_url := "e1",
    received_events_url := "e2", account_type := "User",
    site_admin := false }

/-- A complete asset JSON object with the given `name` and
`browser_download_url`. -/
def assetJson (name url : String) : Json :=
  Json.obj
    [("url", Json.str "au"), ("id", Json.num 2),
     ("node_id", Json.str "n2"), ("name", Json.str name),
     ("label", Json.str ""), ("uploader", sampleAuthorJson),
     ("content_type", Json.str "application/octet-stream"),
     ("state", Json.str "uploaded"), ("size", Json.num 42),
     ("download_count", Json.num 7), ("created_at", Json.str "t1"),
     ("updated_at", Json.str "t2"), ("browser_download_url", Json.str url)]

/-- The decoded value of `assetJson name url`. -/
def sampleAsset (name url : String) : GHAssetRes :=
  { url := "au", id := 2, node_id := "n2", name := name, label := "",
    uploader := sampleAuthor,
    content_type := "application/octet-stream", state := "uploaded",
    size := 42, download_count := 7, created_at := "t1",
    updated_at := "t2", browser_download_url := url }

/-- A complete release JSON object, tagged `v1.2.3`, with the given assets.
The serde-`Option` fields are deliberately absent. -/
def releaseJson (assets : List Json) : Json :=
  Json.obj
    [("url", Json.str "ru"), ("html_url", Json.str "rh"),
     ("assets_url", Json.str "ra"), ("upload_url", Json.str "rp"),
     ("id", Json.num 3), ("node_id", Json.str "n3"),
     ("tag_name", Json.str "v1.2.3"),
     ("target_commitish", Json.str "master"),
     ("draft", Json.bool false), ("prerelease", Json.bool false),
     ("created_at", Json.str "t3"), ("assets", Json.arr assets)]

/-- The decoded value of `releaseJson`. -/
def sampleRelease (assets : List GHAssetRes) : GHReleaseRes :=
  { url := "ru", html_url := "rh", assets_url := "ra", upload_url := "rp",
    tarball_url := none, zipball_url := none, id := 3, node_id := "n3",
    tag_name := "v1.2.3", target_commitish := "master", name := none,
    body := none, draft := false, prerelease := false, created_at := "t3",
    published_at := none, author := none, assets := assets }

/-- The URL `fn main`'s `get_release` contacts. -/
def mainLatestUrl : String := mainLSInfo.url ++ "/" ++ "latest"

/-- An empty filesystem. -/
def emptyFS : FS := { dirs := fun _ => false, files := fun _ => none }

/-- A network where every connection fails. -/
def emptyNet : Net := fun _ => none

/-- A network serving a complete latest-release body whose only asset is
the linux one, plus the payload bytes at its download URL. -/
def sampleNet : Net := fun u =>
  if u = mainLatestUrl then
    some { status := 200, bodyBytes := [],
           bodyJson := some (releaseJson
             [assetJson "awesome-lsp-linux" "https://example/x"]) }
  else if u = "https://example/x" then
    some { status := 200, bodyBytes := [127, 69, 76, 70], bodyJson := none }
  else none

/-- A network serving a latest-release body with two assets of the same
name and different URLs. -/
def dupNet : Net := fun u =>
  if u = mainLatestUrl then
    some { status := 200, bodyBytes := [],
           bodyJson := some (releaseJson
             [assetJson "awesome-lsp-linux" "https://example/x",
              assetJson "awesome-lsp-linux" "https://example/y"]) }
  else none

/-- The minimal mocked release body of the specification's end-to-end
scenario: only `tag_name` and, per asset, `name` and
`browser_download_url`. -/
def mockedJson : Json :=
  Json.obj
    [("tag_name", Json.str "v1.2.3"),
     ("assets", Json.arr
       [Json.obj
         [("name", Json.str "awesome-lsp-linux"),
          ("browser_download_url", Json.str "https://example/x")]])]

/-- A network serving the minimal mocked release body with status 200. -/
def mockedNet : Net := fun u =>
  if u = mainLatestUrl then
    some { status := 200, bodyBytes := [], bodyJson := some mockedJson }
  else none

/-- A network answering the release request with HTTP 404 and GitHub's
JSON error body. -/
def notFoundNet : Net := fun u =>
  if u = mainLatestUrl then
    some { status := 404, bodyBytes := [],
           bodyJson := some (Json.obj [("message", Json.str "Not Found")]) }
  else none

/-- The install step of `fn main` (lines 207-210): `create_bin_dir`, then
`File::create(bin_path)`, then `write_all(content)`, as one function of the
filesystem. `none` is an I/O error propagated out of `main`. -/
def installStep (ls : LSInfo) (home : List String) (content : List Nat)
    (fs : FS) : Option FS :=
  match (ls.create_bin_dir home fs).fileCreate (ls.bin_path home) with
  | none => none
  | some fs2 => some (fs2.writeAll (ls.bin_path home) content)

/-- Every list is a `isPrefixOf`-prefix of itself. -/
theorem isPrefixOf_self {α : Type} [BEq α] [LawfulBEq α] (l : List α) :
    l.isPrefixOf l = true := by
  simp [List.isPrefixOf_iff_prefix]

/-- C6 (confirmed): the install directory is `<home>/.lsm/<projectName>`
and the install file path is `<home>/.lsm/<projectName>/<localBinaryName>`;
at the compiled-in configuration the file path is
`<home>/.lsm/awesome-lsp/awesome-lsp`. -/
theorem c6_install_target (ls : LSInfo) (home : List String) :
    ls.bin_dir home = home ++ [".lsm", ls.name] ∧
    ls.bin_path home = home ++ [".lsm", ls.name, ls.bin_name] ∧
    mainLSInfo.bin_path home = home ++ [".lsm", "awesome-lsp", "awesome-lsp"] := by
  refine ⟨?_, ?_, ?_⟩ <;>
    simp [LSInfo.bin_path, LSInfo.bin_dir, pathJoin, mainLSInfo]

/-- C10 (confirmed): `get_releases` ignores the client value it receives
as an argument and builds a fresh internal client, so its whole result —
value and issued requests alike — is identical for any two client
arguments over the same network. -/
theorem c10_client_argument_unused (ls : LSInfo) (net : Net)
    (c₁ c₂ : Client) : ls.get_releases c₁ net = ls.get_releases c₂ net := rfl

/-- C5 (corrected): on a host OS outside the mapping there is no compiled
`bin_name` method at all — the crate fails to build — so there is no run
and in particular no run-time `UnsupportedPlatform` error; no asset-match
attempt occurs and no request is issued. -/
theorem c5_uncompiled_platform (g : GHRelease) (s : String) (ls : LSInfo)
    (home : List String) (net : Net) (fs0 : FS) :
    g.bin_name (OS.other s) = none ∧
    mainWith (OS.other s) ls home net fs0 = (Outcome.notCompiled, fs0) ∧
    ls.get_download_url (OS.other s) net = (none, []) :=
  ⟨rfl, rfl, rfl⟩

/-- C5 counterexample: at the concrete unrecognized target `freebsd` the
program's outcome is `notCompiled`, which is not the run-time
`UnsupportedPlatform` failure the claim asserts. -/
theorem c5_counterexample :
    mainLSInfo.gh_release.bin_name (OS.other "freebsd") = none ∧
    (mainRun (OS.other "freebsd") ["h"] emptyNet emptyFS).1 =
      Outcome.notCompiled ∧
    Outcome.notCompiled ≠ Outcome.unsupportedPlatform :=
  ⟨rfl, rfl, by decide⟩

/-- C2 counterexample: with the specification's minimal mocked release body
served at the latest-release URL, asset resolution on linux aborts
(`none`) instead of succeeding with `https://example/x`: serde rejects the
body because the non-`Option` fields of the schema are missing. -/
theorem c2_counterexample :
    (mainLSInfo.get_download_url OS.linux mockedNet).1 = none ∧
    (none : Option String) ≠ some "https://example/x" :=
  ⟨rfl, by decide⟩

/-- C2 (corrected): parsing projects only `tag_name` and, per asset,
`name` and `browser_download_url` into the internal record, but decoding
requires every non-`Option` field of the GitHub schema to be present: the
minimal mocked body fails to decode, while a complete release body with
the same tag, asset name and download URL resolves to
`https://example/x`. -/
theorem c2_required_fields_projection :
    decodeGHReleaseRes mockedJson = none ∧
    (mainLSInfo.get_release sampleNet).1 =
      Except.ok
        { name := "v1.2.3",
          assets := [{ name := "awesome-lsp-linux",
                       url := "https://example/x" }] } ∧
    (mainLSInfo.get_download_url OS.linux sampleNet).1 =
      some "https://example/x" :=
  ⟨rfl, rfl, rfl⟩

/-- C3 counterexample: when the release API answers HTTP 404 with GitHub's
JSON error body, `get_release` fails with a decode error, not with an
HTTP-status error carrying 404. -/
theorem c3_counterexample :
    (mainLSInfo.get_release notFoundNet).1 =
      Except.error (ReqwestError.decodeError mainLatestUrl) ∧
    (Except.error (ReqwestError.decodeError mainLatestUrl) :
        Except ReqwestError Res) ≠
      Except.error (ReqwestError.statusError 404) :=
  ⟨rfl, by simp⟩

/-- C3 (corrected): the status code of the release response is never
examined — `.json()` is called on whatever `send()` returns — so whenever
the response body does not decode as the release schema (as with GitHub's
404 error body) the run fails with a decode error, never with an
HTTP-status error. -/
theorem c3_no_status_check (ls : LSInfo) (net : Net) (resp : HttpResponse)
    (j : Json) (hnet : net (ls.url ++ "/" ++ "latest") = some resp)
    (hjson : resp.bodyJson = some j) (hdec : decodeGHReleaseRes j = none) :
    (ls.get_release net).1 =
      Except.error (ReqwestError.decodeError (ls.url ++ "/" ++ "latest")) ∧
    ∀ s : Nat, (ls.get_release net).1 ≠
      Except.error (ReqwestError.statusError s) := by
  have h1 : (ls.get_release net).1 =
      Except.error (ReqwestError.decodeError (ls.url ++ "/" ++ "latest")) := by
    simp only [LSInfo.get_release, LSInfo.client, hnet, hjson, hdec]
  refine ⟨h1, fun s h => ?_⟩
  rw [h1] at h
  simp at h

/-- C3 witness: the corrected statement applied at the concrete 404
network. -/
theorem c3_no_status_check_witness :
    (mainLSInfo.get_release notFoundNet).1 =
      Except.error
        (ReqwestError.decodeError (mainLSInfo.url ++ "/" ++ "latest")) ∧
    (mainLSInfo.get_release notFoundNet).1 ≠
      Except.error (ReqwestError.statusError 404) :=
  ⟨(c3_no_status_check mainLSInfo notFoundNet
      { status := 404, bodyBytes := [],
        bodyJson := some (Json.obj [("message", Json.str "Not Found")]) }
      (Json.obj [("message", Json.str "Not Found")]) rfl rfl rfl).1,
   (c3_no_status_check mainLSInfo notFoundNet
      { status := 404, bodyBytes := [],
        bodyJson := some (Json.obj [("message", Json.str "Not Found")]) }
      (Json.obj [("message", Json.str "Not Found")]) rfl rfl rfl).2 404⟩

/-- C7 (confirmed): the install step (create the directory if absent, then
create/truncate the file and write the content) never fails — in
particular not when the directory already exists — and running it twice
with the same target and content produces exactly the state of running it
once. -/
theorem c7_install_idempotent (ls : LSInfo) (home : List String)
    (content : List Nat) (fs : FS) :
    ∃ fs1, installStep ls home content fs = some fs1 ∧
      installStep ls home content fs1 = some fs1 := by
  refine ⟨{ dirs := fun q => fs.dirs q || List.isPrefixOf q (ls.bin_dir home),
            files := fun q => if q = ls.bin_path home then some content
              else fs.files q }, ?_, ?_⟩ <;>
  · simp only [installStep, LSInfo.create_bin_dir, FS.createDirAll,
      FS.fileCreate, FS.writeAll, LSInfo.bin_path, pathJoin,
      List.dropLast_concat, isPrefixOf_self, Bool.or_true, if_true,
      Option.some.injEq]
    refine FS.ext ?_ ?_ <;> funext q
    · simp [Bool.or_assoc]
    · by_cases hq : q = ls.bin_dir home ++ [ls.bin_name] <;> simp [hq]

/-- `find?` returns the head of the matching tail when everything before it
fails the predicate. -/
theorem find?_append_first {α : Type} (p : α → Bool) (l₁ : List α) (a : α)
    (l₂ : List α) (h₁ : ∀ b ∈ l₁, p b = false) (ha : p a = true) :
    List.find? p (l₁ ++ a :: l₂) = some a := by
  induction l₁ with
  | nil => simpa using List.find?_cons_of_pos l₂ ha
  | cons x xs ih =>
    have hx := h₁ x (List.mem_cons_self x xs)
    rw [List.cons_append, List.find?_cons_of_neg _ (by simp [hx]),
      ih (fun b hb => h₁ b (List.mem_cons_of_mem x hb))]

/-- C4 (confirmed): whenever the decoded release's assets, in order, are a
prefix with no name equal to the expected platform asset name, then one
asset whose name equals it exactly, then anything (so in particular with
duplicates), `get_download_url` returns that first matching asset's
download URL — first match wins, exact case-sensitive equality. -/
theorem c4_first_match_wins (ls : LSInfo) (os : OS) (n : String)
    (net : Net) (res : Res) (reqs : List Request) (l₁ l₂ : List ResAsset)
    (a : ResAsset)
    (hbin : ls.gh_release.bin_name os = some n)
    (hrel : ls.get_release net = (Except.ok res, reqs))
    (hsplit : res.assets = l₁ ++ a :: l₂)
    (ha : a.name = n)
    (hfirst : ∀ b ∈ l₁, b.name ≠ n) :
    ls.get_download_url os net = (some a.url, reqs) := by
  have hf : List.find? (fun x => x.name == n) res.assets = some a := by
    rw [hsplit]
    exact find?_append_first _ _ _ _
      (fun b hb => by simp [beq_eq_false_iff_ne, hfirst b hb]) (by simp [ha])
  simp only [LSInfo.get_download_url, hbin, hrel, hf]

/-- C4 witness: on a release carrying two assets both named
`awesome-lsp-linux`, resolution returns the URL of the first one. -/
theorem c4_first_match_wins_witness :
    mainLSInfo.get_download_url OS.linux dupNet =
      (some "https://example/x",
       [{ url := mainLSInfo.url ++ "/" ++ "latest", user_agent := "rust",
          authorization := none }]) :=
  c4_first_match_wins mainLSInfo OS.linux "awesome-lsp-linux" dupNet
    { name := "v1.2.3",
      assets := [{ name := "awesome-lsp-linux", url := "https://example/x" },
                 { name := "awesome-lsp-linux", url := "https://example/y" }] }
    [{ url := mainLSInfo.url ++ "/" ++ "latest", user_agent := "rust",
       authorization := none }]
    [] [{ name := "awesome-lsp-linux", url := "https://example/y" }]
    { name := "awesome-lsp-linux", url := "https://example/x" }
    rfl rfl rfl rfl (by simp)

/-- C9 (confirmed): the projection from a decoded GitHub release to the
internal record keeps the assets list's length and order, maps each
asset's `name` to `name` and `browser_download_url` to `url`, and maps the
release's `tag_name` to the record's `name`. -/
theorem c9_release_projection (ls : LSInfo) (net : Net)
    (resp : HttpResponse) (j : Json) (release : GHReleaseRes) (res : Res)
    (reqs : List Request)
    (hnet : net (ls.url ++ "/" ++ "latest") = some resp)
    (hjson : resp.bodyJson = some j)
    (hdec : decodeGHReleaseRes j = some release)
    (hrun : ls.get_release net = (Except.ok res, reqs)) :
    res.name = release.tag_name ∧
    res.assets.length = release.assets.length ∧
    ∀ i (hi : i < release.assets.length) (hi2 : i < res.assets.length),
      (res.assets.get ⟨i, hi2⟩).name = (release.assets.get ⟨i, hi⟩).name ∧
      (res.assets.get ⟨i, hi2⟩).url =
        (release.assets.get ⟨i, hi⟩).browser_download_url := by
  simp only [LSInfo.get_release, LSInfo.client, hnet, hjson, hdec,
    Prod.mk.injEq, Except.ok.injEq] at hrun
  obtain ⟨h1, h2⟩ := hrun
  subst h1
  refine ⟨rfl, by simp, ?_⟩
  intro i hi hi2
  simp [List.get_eq_getElem, List.getElem_map]

/-- C9 witness: the projection statement instantiated at the complete
sample release response. -/
theorem c9_release_projection_witness :
    ({ name := "v1.2.3",
       assets := [{ name := "awesome-lsp-linux",
                    url := "https://example/x" }] } : Res).name =
      (sampleRelease
        [sampleAsset "awesome-lsp-linux" "https://example/x"]).tag_name ∧
    ({ name := "v1.2.3",
       assets := [{ name := "awesome-lsp-linux",
                    url := "https://example/x" }] } : Res).assets.length =
      (sampleRelease
        [sampleAsset "awesome-lsp-linux" "https://example/x"]).assets.length := by
  have h := c9_release_projection mainLSInfo sampleNet
    { status := 200, bodyBytes := [],
      bodyJson := some (releaseJson
        [assetJson "awesome-lsp-linux" "https://example/x"]) }
    (releaseJson [assetJson "awesome-lsp-linux" "https://example/x"])
    (sampleRelease [sampleAsset "awesome-lsp-linux" "https://example/x"])
    { name := "v1.2.3",
      assets := [{ name := "awesome-lsp-linux", url := "https://example/x" }] }
    [{ url := mainLSInfo.url ++ "/" ++ "latest", user_agent := "rust",
       authorization := none }]
    rfl rfl rfl rfl
  exact ⟨h.1, h.2.1⟩

/-- C1 (corrected): when the release decodes but contains no asset named
like the platform's expected one, the run does fail (the `unwrap` in
`get_download_url` panics) — but the filesystem is NOT left unchanged:
`fn main` runs `File::create` on the install path before attempting the
download, so at the moment of the panic an empty (newly created or
truncated) file sits at the install path. -/
theorem c1_file_created_before_failure (os : OS) (n : String) (ls : LSInfo)
    (home : List String) (net : Net) (fs0 : FS) (resp : HttpResponse)
    (j : Json) (release : GHReleaseRes)
    (hbin : ls.gh_release.bin_name os = some n)
    (hnet : net (ls.url ++ "/" ++ "latest") = some resp)
    (hjson : resp.bodyJson = some j)
    (hdec : decodeGHReleaseRes j = some release)
    (hmiss : ∀ a ∈ release.assets, a.name ≠ n) :
    (mainWith os ls home net fs0).1 = Outcome.panicked ∧
    ((mainWith os ls home net fs0).2).files (ls.bin_path home) = some [] := by
  have hrel : ls.get_release net =
      (Except.ok { name := release.tag_name,
                   assets := release.assets.map (fun a =>
                     { name := a.name, url := a.browser_download_url }) },
       [{ url := ls.url ++ "/" ++ "latest", user_agent := "rust",
          authorization := none }]) := by
    simp only [LSInfo.get_release, LSInfo.client, hnet, hjson, hdec]
  have hfind : List.find? (fun a => a.name == n)
      (release.assets.map (fun a =>
        ({ name := a.name, url := a.browser_download_url } : ResAsset))) =
      none := by
    rw [List.find?_eq_none]
    intro x hx
    obtain ⟨a, ha, rfl⟩ := List.mem_map.mp hx
    simp [hmiss a ha]
  have hdl : ls.get_download_url os net =
      (none, [{ url := ls.url ++ "/" ++ "latest", user_agent := "rust",
                authorization := none }]) := by
    simp only [LSInfo.get_download_url, hbin, hrel, hfind]
  have hgb : ls.get_bin os net =
      (none, [{ url := ls.url ++ "/" ++ "latest", user_agent := "rust",
                authorization := none }]) := by
    simp only [LSInfo.get_bin, hdl]
  simp only [mainWith, hbin, LSInfo.create_bin_dir, hgb, FS.fileCreate,
    FS.createDirAll, LSInfo.bin_path, pathJoin, List.dropLast_concat,
    isPrefixOf_self, Bool.or_true, if_true]
  refine ⟨?_, ?_⟩ <;> simp

/-- C1 witness: the corrected statement at the windows scenario of the
specification — expected name `awesome-lsp-windows.exe`, absent from the
release. -/
theorem c1_file_created_before_failure_witness :
    (mainWith OS.windows mainLSInfo ["h"] sampleNet emptyFS).1 =
      Outcome.panicked ∧
    ((mainWith OS.windows mainLSInfo ["h"] sampleNet emptyFS).2).files
      (mainLSInfo.bin_path ["h"]) = some [] :=
  c1_file_created_before_failure OS.windows "awesome-lsp-windows.exe"
    mainLSInfo ["h"] sampleNet emptyFS
    { status := 200, bodyBytes := [],
      bodyJson := some (releaseJson
        [assetJson "awesome-lsp-linux" "https://example/x"]) }
    (releaseJson [assetJson "awesome-lsp-linux" "https://example/x"])
    (sampleRelease [sampleAsset "awesome-lsp-linux" "https://example/x"])
    rfl rfl rfl rfl (by decide)

/-- C1 counterexample: starting from an empty filesystem on the windows
host, the run fails with the asset missing, yet afterwards an empty file
exists at the install path — the filesystem is not left unchanged. -/
theorem c1_counterexample :
    emptyFS.files (mainLSInfo.bin_path ["h"]) = none ∧
    (mainRun OS.windows ["h"] sampleNet emptyFS).1 = Outcome.panicked ∧
    ((mainRun OS.windows ["h"] sampleNet emptyFS).2).files
      (mainLSInfo.bin_path ["h"]) = some [] :=
  ⟨rfl, rfl, rfl⟩

/-- The single request `get_release` puts on the wire, whatever the
network does. -/
theorem get_release_requests (ls : LSInfo) (net : Net) :
    (ls.get_release net).2 =
      [{ url := ls.url ++ "/" ++ "latest", user_agent := "rust",
         authorization := none }] := by
  cases hn : net (ls.url ++ "/" ++ "latest") with
  | none => simp only [LSInfo.get_release, LSInfo.client, hn]
  | some resp =>
    cases hj : resp.bodyJson with
    | none => simp only [LSInfo.get_release, LSInfo.client, hn, hj]
    | some j =>
      cases hd : decodeGHReleaseRes j with
      | none => simp only [LSInfo.get_release, LSInfo.client, hn, hj, hd]
      | some rel => simp only [LSInfo.get_release, LSInfo.client, hn, hj, hd]

/-- The single request `get_releases` puts on the wire. -/
theorem get_releases_requests (ls : LSInfo) (c : Client) (net : Net) :
    (ls.get_releases c net).2 =
      [{ url := ls.url, user_agent := "rust", authorization := none }] := by
  cases hn : net ls.url with
  | none => simp only [LSInfo.get_releases, LSInfo.client, hn]
  | some resp =>
    cases hj : resp.bodyJson with
    | none => simp only [LSInfo.get_releases, LSInfo.client, hn, hj]
    | some j =>
      cases hd : decodeGHReleaseList j with
      | none => simp only [LSInfo.get_releases, LSInfo.client, hn, hj, hd]
      | some rels => simp only [LSInfo.get_releases, LSInfo.client, hn, hj, hd]

/-- The requests `get_download_url` puts on the wire: none (uncompiled
target), or the one release request. -/
theorem get_download_url_requests (ls : LSInfo) (os : OS) (net : Net) :
    (ls.get_download_url os net).2 = [] ∨
    (ls.get_download_url os net).2 =
      [{ url := ls.url ++ "/" ++ "latest", user_agent := "rust",
         authorization := none }] := by
  cases hb : ls.gh_release.bin_name os with
  | none => left; simp only [LSInfo.get_download_url, hb]
  | some n =>
    have hr := get_release_requests ls net
    cases hrel : ls.get_release net with
    | mk fst snd =>
      rw [hrel] at hr
      simp only at hr
      cases fst with
      | error e =>
        right
        simp only [LSInfo.get_download_url, hb, hrel]
        exact hr
      | ok res =>
        cases hf : res.assets.find? (fun a => a.name == n) with
        | none =>
          right
          simp only [LSInfo.get_download_url, hb, hrel, hf]
          exact hr
        | some a =>
          right
          simp only [LSInfo.get_download_url, hb, hrel, hf]
          exact hr

/-- Every request `get_bin` puts on the wire carries the `"rust"` user
agent and no authorization. -/
theorem get_bin_requests (ls : LSInfo) (os : OS) (net : Net) (r : Request)
    (h : r ∈ (ls.get_bin os net).2) :
    r.user_agent = "rust" ∧ r.authorization = none := by
  have hdl := get_download_url_requests ls os net
  cases hurl : ls.get_download_url os net with
  | mk u reqs =>
    rw [hurl] at hdl
    simp only at hdl
    have hreqs : ∀ x ∈ reqs,
        x.user_agent = "rust" ∧ x.authorization = none := by
      intro x hx
      rcases hdl with h0 | h0 <;> rw [h0] at hx
      · simp at hx
      · simp only [List.mem_singleton] at hx
        rw [hx]
        exact ⟨rfl, rfl⟩
    simp only [LSInfo.get_bin, hurl] at h
    cases u with
    | none =>
      simp only at h
      exact hreqs r h
    | some url =>
      simp only [LSInfo.client] at h
      cases hn : net url with
      | none =>
        rw [hn] at h
        simp only [List.mem_append, List.mem_singleton] at h
        rcases h with h2 | h2
        · exact hreqs r h2
        · rw [h2]
          exact ⟨rfl, rfl⟩
      | some resp =>
        rw [hn] at h
        simp only [List.mem_append, List.mem_singleton] at h
        rcases h with h2 | h2
        · exact hreqs r h2
        · rw [h2]
          exact ⟨rfl, rfl⟩

/-- C8 (confirmed): every HTTP request the program issues — the release
request of `get_release`, both requests of `get_bin` (release metadata and
asset download), and the request of `get_releases` — carries the non-empty
`User-Agent` `"rust"` chosen by the shared client builder and no
authorization token. -/
theorem c8_requests_anonymous (ls : LSInfo) (os : OS) (net : Net)
    (c : Client) (r : Request)
    (h : r ∈ (ls.get_release net).2 ∨ r ∈ (ls.get_bin os net).2 ∨
      r ∈ (ls.get_releases c net).2) :
    r.user_agent ≠ "" ∧ r.authorization = none := by
  have hk : r.user_agent = "rust" ∧ r.authorization = none := by
    rcases h with h | h | h
    · rw [get_release_requests] at h
      simp only [List.mem_singleton] at h
      rw [h]; exact ⟨rfl, rfl⟩
    · exact get_bin_requests ls os net r h
    · rw [get_releases_requests] at h
      simp only [List.mem_singleton] at h
      rw [h]; exact ⟨rfl, rfl⟩
  refine ⟨?_, hk.2⟩
  rw [hk.1]
  decide

/-- C8 witness: the release request of `get_release` at the compiled-in
configuration, even over an all-failing network and alongside an intruding
authorized client argument, is anonymous. -/
theorem c8_requests_anonymous_witness :
    ({ url := mainLSInfo.url ++ "/" ++ "latest", user_agent := "rust",
       authorization := none } : Request).user_agent ≠ "" ∧
    ({ url := mainLSInfo.url ++ "/" ++ "latest", user_agent := "rust",
       authorization := none } : Request).authorization = none :=
  c8_requests_anonymous mainLSInfo OS.linux emptyNet
    { user_agent := "someone-elses-client", authorization := some "token" }
    { url := mainLSInfo.url ++ "/" ++ "latest", user_agent := "rust",
      authorization := none }
    (Or.inl (by rw [get_release_requests]; exact List.mem_singleton.mpr rfl))
